import Mathlib

/-!
Verification development for the safebiteAI backend.

We give a shallow embedding of the AI-response normalization pipeline in
`src/backend/services/brandScanner.js` (schema validation, text extraction,
fence stripping, JSON parsing, structural fallbacks, defaulting) and of the
HTTP route handlers in `src/backend/routes/brand.js` and
`src/backend/routes/profile.js`.

JavaScript runtime values flowing through the pipeline are modelled by the
inductive type `Json` (JSON values; `undefined` is modelled by `Option.none`
at access sites). JavaScript numbers are modelled as rationals: every numeric
comparison performed by the code (`0 <= x <= 100`, truthiness) is exact on
the inputs the pipeline sees, and no float rounding is load-bearing anywhere
in the source.
-/

namespace SafeBite

/-- JSON / JavaScript data values. Objects are insertion-ordered field lists;
duplicate keys can only arise from `JSON.parse`, where the last binding wins
(see `jlookup`). -/
inductive Json where
  | null : Json
  | bool : Bool → Json
  | num : Rat → Json
  | str : String → Json
  | arr : List Json → Json
  | obj : List (String × Json) → Json

/-- JavaScript truthiness of a value. (`NaN` is not representable in the
rational model; no code path in scope produces it.) -/
def jsTruthy : Json → Bool
  | .null => false
  | .bool b => b
  | .num q => q ≠ 0
  | .str s => s ≠ ""
  | .arr _ => true
  | .obj _ => true

/-- Truthiness of a possibly-`undefined` value (`none` = `undefined`). -/
def jsTruthyOpt : Option Json → Bool
  | none => false
  | some v => jsTruthy v

/-- Last-binding-wins field lookup, matching `JSON.parse`'s duplicate-key
semantics and ordinary property lookup on runtime objects. -/
def jlookup (fs : List (String × Json)) (k : String) : Option Json :=
  match fs with
  | [] => none
  | (k', v) :: rest =>
    match jlookup rest k with
    | some w => some w
    | none => if k' = k then some v else none

/-- Plain property access `v.k` on a value already known non-nullish:
objects yield the field (or `undefined`), every other value yields
`undefined` (primitives have no such own properties; arrays from JSON data
carry no named fields). -/
def rawGet : Json → String → Option Json
  | .obj fs, k => jlookup fs k
  | _, _ => none

/-- Optional-chained access `base?.k`: short-circuits to `undefined` when the
base is `undefined` or `null`. -/
def jsGet : Option Json → String → Option Json
  | none, _ => none
  | some .null, _ => none
  | some v, k => rawGet v k

/-- Optional-chained index access `base?.[0]`: element 0 of an array, first
character of a string, or key `"0"` of an object. -/
def jsIdx0 : Option Json → Option Json
  | none => none
  | some .null => none
  | some (.arr xs) => xs.head?
  | some (.str s) =>
    match s.toList with
    | [] => none
    | c :: _ => some (.str (String.mk [c]))
  | some (.obj fs) => jlookup fs "0"
  | some _ => none

/-- Is the value a JavaScript `object` (i.e. `typeof v === "object"` and
`v !== null`)? Arrays qualify. -/
def isObjLike : Json → Bool
  | .obj _ => true
  | .arr _ => true
  | _ => false

/-- Is the value an array (`Array.isArray`)? -/
def isArr : Json → Bool
  | .arr _ => true
  | _ => false

/-- Render a rational as `JSON.stringify` renders a number. Integers (the
only numeric values exercised by the pipeline's observable messages) are
rendered exactly; non-integral rationals are rendered as `num/den`, an
inessential deviation from JS decimal notation that no theorem depends on. -/
def numToString (q : Rat) : String :=
  if q.den = 1 then toString q.num
  else toString q.num ++ "/" ++ toString q.den

/-- Characters escaped by `JSON.stringify` inside string literals. -/
def escChar (c : Char) : String :=
  if c = Char.ofNat 34 then String.mk [Char.ofNat 92, Char.ofNat 34]
  else if c = Char.ofNat 92 then String.mk [Char.ofNat 92, Char.ofNat 92]
  else if c = Char.ofNat 10 then String.mk [Char.ofNat 92, 'n']
  else if c = Char.ofNat 13 then String.mk [Char.ofNat 92, 'r']
  else if c = Char.ofNat 9 then String.mk [Char.ofNat 92, 't']
  else if c = Char.ofNat 8 then String.mk [Char.ofNat 92, 'b']
  else if c = Char.ofNat 12 then String.mk [Char.ofNat 92, 'f']
  else if c.toNat < 32 then String.mk [Char.ofNat 92, 'u', '0', '0',
    Char.ofNat (if c.toNat / 16 < 10 then 48 + c.toNat / 16 else 87 + c.toNat / 16),
    Char.ofNat (if c.toNat % 16 < 10 then 48 + c.toNat % 16 else 87 + c.toNat % 16)]
  else String.mk [c]

/-- `JSON.stringify` escaping of a string body, with surrounding quotes. -/
def quoteStr (s : String) : String :=
  String.mk [Char.ofNat 34] ++ String.join (s.toList.map escChar) ++ String.mk [Char.ofNat 34]

mutual
/-- `JSON.stringify` on a JSON value (no `undefined`/function members arise
in the modelled data). -/
def stringifyJson : Json → String
  | .null => "null"
  | .bool b => if b then "true" else "false"
  | .num q => numToString q
  | .str s => quoteStr s
  | .arr xs => "[" ++ stringifyList xs ++ "]"
  | .obj fs => "\x7b" ++ stringifyFields fs ++ "\x7d"

def stringifyList : List Json → String
  | [] => ""
  | [x] => stringifyJson x
  | x :: rest => stringifyJson x ++ "," ++ stringifyList rest

def stringifyFields : List (String × Json) → String
  | [] => ""
  | [(k, v)] => quoteStr k ++ ":" ++ stringifyJson v
  | (k, v) :: rest => quoteStr k ++ ":" ++ stringifyJson v ++ "," ++ stringifyFields rest
end

mutual
/-- JavaScript `String(v)` conversion, used by template literals.
Array elements join with commas, `null` elements rendering empty. -/
def jsTemplate : Json → String
  | .null => "null"
  | .bool b => if b then "true" else "false"
  | .num q => numToString q
  | .str s => s
  | .arr xs => jsTemplateList xs
  | .obj _ => "[object Object]"

def jsTemplateList : List Json → String
  | [] => ""
  | [.null] => ""
  | [x] => jsTemplate x
  | .null :: rest => "," ++ jsTemplateList rest
  | x :: rest => jsTemplate x ++ "," ++ jsTemplateList rest
end

/-! ### `JSON.parse`

A recursive-descent parser for ECMAScript `JSON.parse` over character
lists, with a fuel parameter for termination (the fuel supplied by
`parseJson` is generous enough for any input of the given length). Lone
`\uXXXX` surrogate escapes degrade to a default character, a corner of
UTF-16 no theorem touches. -/

/-- The JSON whitespace characters (space, tab, line feed, carriage return). -/
def isWs (c : Char) : Bool :=
  c = ' ' || c = Char.ofNat 9 || c = Char.ofNat 10 || c = Char.ofNat 13

def skipWs : List Char → List Char
  | c :: rest => if isWs c then skipWs rest else c :: rest
  | [] => []

def hexVal (c : Char) : Option Nat :=
  if '0' ≤ c ∧ c ≤ '9' then some (c.toNat - 48)
  else if 'a' ≤ c ∧ c ≤ 'f' then some (c.toNat - 87)
  else if 'A' ≤ c ∧ c ≤ 'F' then some (c.toNat - 55)
  else none

/-- Parse a JSON string body, the opening quote already consumed; returns
the decoded string and the input after the closing quote. -/
def parseStringBody : Nat → List Char → Option (String × List Char)
  | 0, _ => none
  | fuel + 1, cs =>
    match cs with
    | [] => none
    | c :: rest =>
      if c = Char.ofNat 34 then some ("", rest)
      else if c = Char.ofNat 92 then
        match rest with
        | [] => none
        | e :: rest2 =>
          let esc : Option (Char × List Char) :=
            if e = Char.ofNat 34 then some (Char.ofNat 34, rest2)
            else if e = Char.ofNat 92 then some (Char.ofNat 92, rest2)
            else if e = '/' then some ('/', rest2)
            else if e = 'b' then some (Char.ofNat 8, rest2)
            else if e = 'f' then some (Char.ofNat 12, rest2)
            else if e = 'n' then some (Char.ofNat 10, rest2)
            else if e = 'r' then some (Char.ofNat 13, rest2)
            else if e = 't' then some (Char.ofNat 9, rest2)
            else if e = 'u' then
              match rest2 with
              | h1 :: h2 :: h3 :: h4 :: rest3 =>
                match hexVal h1, hexVal h2, hexVal h3, hexVal h4 with
                | some a, some b, some c2, some d =>
                  some (Char.ofNat (((a * 16 + b) * 16 + c2) * 16 + d), rest3)
                | _, _, _, _ => none
              | _ => none
            else none
          match esc with
          | some (ch, rest3) =>
            match parseStringBody fuel rest3 with
            | some (s, r) => some (String.mk [ch] ++ s, r)
            | none => none
          | none => none
      else if c.toNat < 32 then none
      else
        match parseStringBody fuel rest with
        | some (s, r) => some (String.mk [c] ++ s, r)
        | none => none

/-- Longest leading run of decimal digits. -/
def takeDigits : List Char → List Char × List Char
  | c :: rest =>
    if c.isDigit then
      let (ds, r) := takeDigits rest
      (c :: ds, r)
    else ([], c :: rest)
  | [] => ([], [])

def digitsVal (ds : List Char) : Nat :=
  ds.foldl (fun a c => a * 10 + (c.toNat - 48)) 0

/-- Fractional part: digits after a `.`, or nothing. -/
def parseFrac : List Char → Option (List Char × List Char)
  | '.' :: r =>
    let (fd, r2) := takeDigits r
    if fd.isEmpty then none else some (fd, r2)
  | cs => some ([], cs)

/-- Exponent part: `e`/`E`, optional sign, digits — or nothing. -/
def parseExp (cs : List Char) : Option (Int × List Char) :=
  match cs with
  | c :: r =>
    if c = 'e' ∨ c = 'E' then
      let (sgn, r1) : Int × List Char :=
        match r with
        | '+' :: rr => (1, rr)
        | '-' :: rr => (-1, rr)
        | rr => (1, rr)
      let (ed, r2) := takeDigits r1
      if ed.isEmpty then none else some (sgn * Int.ofNat (digitsVal ed), r2)
    else some (0, cs)
  | [] => some (0, [])

/-- The exact rational `±mant · 10^ex / 10^fracLen` denoted by a parsed
number. The integral case (`fracLen = 0`, `ex ≥ 0`) is built by natural
arithmetic and a cast — the same value the general formula gives, kept
separate so that concrete runs reduce inside the kernel (rational
division normalizes through `Nat.gcd`, which does not). -/
def ratOfParts (neg : Bool) (mant : Nat) (fracLen : Nat) (ex : Int) : Rat :=
  if fracLen = 0 ∧ 0 ≤ ex then
    let magN : Nat := mant * 10 ^ ex.toNat
    if neg then -(magN : Rat) else (magN : Rat)
  else
    let sMant : Int := if neg then -(Int.ofNat mant) else Int.ofNat mant
    let base : Rat := (sMant : Rat) / ((10 : Rat) ^ fracLen)
    if 0 ≤ ex then base * (10 : Rat) ^ ex.toNat
    else base / ((10 : Rat) ^ (-ex).toNat)

/-- A JSON number per the JSON grammar (no leading `+`, no leading zeros),
as an exact rational. -/
def parseNumber (cs : List Char) : Option (Rat × List Char) := do
  let (neg, cs1) : Bool × List Char :=
    match cs with
    | c :: r => if c = '-' then (true, r) else (false, cs)
    | [] => (false, cs)
  let (ds, rest1) := takeDigits cs1
  if ds.isEmpty then none
  else if ds.length > 1 ∧ ds.head? = some '0' then none
  else do
    let (fd, rest2) ← parseFrac rest1
    let (ex, rest3) ← parseExp rest2
    some (ratOfParts neg (digitsVal (ds ++ fd)) fd.length ex, rest3)

mutual
/-- JSON value parser; returns the value and the unconsumed input. -/
def parseVal : Nat → List Char → Option (Json × List Char)
  | 0, _ => none
  | fuel + 1, cs =>
    match skipWs cs with
    | [] => none
    | c :: rest =>
      if c = Char.ofNat 34 then
        match parseStringBody (rest.length + 1) rest with
        | some (s, r) => some (.str s, r)
        | none => none
      else if c = 'n' then
        match rest with
        | 'u' :: 'l' :: 'l' :: r => some (.null, r)
        | _ => none
      else if c = 't' then
        match rest with
        | 'r' :: 'u' :: 'e' :: r => some (.bool true, r)
        | _ => none
      else if c = 'f' then
        match rest with
        | 'a' :: 'l' :: 's' :: 'e' :: r => some (.bool false, r)
        | _ => none
      else if c = '[' then
        match skipWs rest with
        | ']' :: r => some (.arr [], r)
        | cs2 =>
          match parseArrItems fuel cs2 with
          | some (xs, r) => some (.arr xs, r)
          | none => none
      else if c = Char.ofNat 123 then
        match skipWs rest with
        | [] => none
        | c2 :: r =>
          if c2 = Char.ofNat 125 then some (.obj [], r)
          else
            match parseObjItems fuel (c2 :: r) with
            | some (fs, r2) => some (.obj fs, r2)
            | none => none
      else if c = '-' ∨ c.isDigit then
        match parseNumber (c :: rest) with
        | some (q, r) => some (.num q, r)
        | none => none
      else none

/-- Comma-separated array items up to the closing `]`. -/
def parseArrItems : Nat → List Char → Option (List Json × List Char)
  | 0, _ => none
  | fuel + 1, cs =>
    match parseVal fuel cs with
    | some (v, r1) =>
      match skipWs r1 with
      | ',' :: r2 =>
        match parseArrItems fuel r2 with
        | some (xs, r3) => some (v :: xs, r3)
        | none => none
      | ']' :: r2 => some ([v], r2)
      | _ => none
    | none => none

/-- Comma-separated `"key": value` members up to the closing brace. -/
def parseObjItems : Nat → List Char → Option (List (String × Json) × List Char)
  | 0, _ => none
  | fuel + 1, cs =>
    match skipWs cs with
    | [] => none
    | c :: r =>
      if c = Char.ofNat 34 then
        match parseStringBody (r.length + 1) r with
        | some (k, r1) =>
          match skipWs r1 with
          | ':' :: r2 =>
            match parseVal fuel r2 with
            | some (v, r3) =>
              match skipWs r3 with
              | [] => none
              | c2 :: r4 =>
                if c2 = ',' then
                  match parseObjItems fuel r4 with
                  | some (fs, r5) => some ((k, v) :: fs, r5)
                  | none => none
                else if c2 = Char.ofNat 125 then some ([(k, v)], r4)
                else none
            | none => none
          | _ => none
        | none => none
      else none
end

/-- `JSON.parse`: parse a complete JSON text, rejecting trailing garbage;
`none` models the thrown `SyntaxError`. -/
def parseJson (s : String) : Option Json :=
  let cs := s.toList
  match parseVal (2 * cs.length + 4) cs with
  | some (j, rest) => if (skipWs rest).isEmpty then some j else none
  | none => none

/-! ### `cleanJsonResponse` (brandScanner.js lines 30–37) -/

/-- After a triple backtick, the regex `(?:json)?` also consumes an
immediately following case-insensitive `json`. -/
def dropJsonCI (cs : List Char) : List Char :=
  match cs with
  | c1 :: c2 :: c3 :: c4 :: rest =>
    if (c1 = 'j' ∨ c1 = 'J') ∧ (c2 = 's' ∨ c2 = 'S') ∧ (c3 = 'o' ∨ c3 = 'O') ∧
       (c4 = 'n' ∨ c4 = 'N')
    then rest else cs
  | _ => cs

/-- Fuelled scan for `stripFences`; each step consumes at least one input
character, so fuel equal to the input length is exact. -/
def stripFencesFuel : Nat → List Char → List Char
  | 0, cs => cs
  | fuel + 1, cs =>
    match cs with
    | c1 :: c2 :: c3 :: rest =>
      if c1 = Char.ofNat 96 ∧ c2 = Char.ofNat 96 ∧ c3 = Char.ofNat 96 then
        stripFencesFuel fuel (dropJsonCI rest)
      else c1 :: stripFencesFuel fuel (c2 :: c3 :: rest)
    | _ => cs

/-- Left-to-right removal of every ````` ``` ````` fence marker together with
an immediately following `json` tag: the combined effect of the two global
`replace` calls. (The first pass can leave no fence behind — a retained
character directly followed by the start of a removed chunk would itself
have started a match — so the second `replace` is the identity on the first
pass's output.) -/
def stripFences (cs : List Char) : List Char :=
  stripFencesFuel cs.length cs

/-- `String.prototype.trim` on the whitespace the pipeline can meet (the
ASCII whitespace subset of the JS definition). -/
def jsTrim (s : String) : String :=
  String.mk
    (((s.toList.dropWhile fun c => c.isWhitespace).reverse.dropWhile
      fun c => c.isWhitespace).reverse)

/-- `String.prototype.startsWith`. -/
def strStartsWith (s p : String) : Bool :=
  p.toList.isPrefixOf s.toList

/-- `cleanJsonResponse`: falsy or non-string input is returned unchanged;
a truthy string has its code fences removed and is trimmed. -/
def cleanJsonResponse (text : Json) : Json :=
  if ¬ jsTruthy text then text
  else
    match text with
    | .str s => .str (jsTrim (String.mk (stripFences s.toList)))
    | v => v

/-! ### `extractModelText` (brandScanner.js lines 40–72) -/

/-- `response?.response`. -/
def respBase (response : Json) : Option Json := jsGet (some response) "response"

/-- `response?.response?.candidates?.[0]`. -/
def firstCandidate (response : Json) : Option Json :=
  jsIdx0 (jsGet (respBase response) "candidates")

/-- Path 4 of `extractModelText`: serialize the whole first candidate when
it is truthy. -/
def stringifyCandidate : Option Json → Option Json
  | some cand => if jsTruthy cand then some (.str (stringifyJson cand)) else none
  | none => none

/-- `extractModelText`: probe the known response shapes in priority order.
Returns the raw text value, which the source does not force to be a string
(a truthy non-string `text` field is returned as-is). `none` models the
function's `null`. The `try` in the source can never take its `catch` arm
here: every probed operation is total. -/
def extractModelText (response : Json) : Option Json :=
  if ¬ (jsTruthy response && isObjLike response) then none
  else if jsTruthyOpt
      (jsGet (jsIdx0 (jsGet (jsGet (firstCandidate response) "content") "parts")) "text") then
    jsGet (jsIdx0 (jsGet (jsGet (firstCandidate response) "content") "parts")) "text"
  else if jsTruthyOpt (jsGet (jsIdx0 (jsGet (firstCandidate response) "content")) "text") then
    jsGet (jsIdx0 (jsGet (firstCandidate response) "content")) "text"
  else
    match jsIdx0 (jsGet (jsGet (firstCandidate response) "content") "parts") with
    | some v =>
      if jsTruthy v && isObjLike v && !(jsTruthyOpt (rawGet v "text")) then
        some (.str (stringifyJson v))
      else stringifyCandidate (firstCandidate response)
    | none => stringifyCandidate (firstCandidate response)

/-! ### The Zod schema `DrinkAnalysisSchema` (brandScanner.js lines 7–17) -/

/-- The validated payload. `Option` fields model Zod `.optional()`: `none`
means the key was absent from the input and is stripped from the output
(`.optional()` supplies no default value). -/
structure DrinkAnalysis where
  brandName : String
  productType : String
  manufacturer : Option String
  keyIngredients : List String
  expiryDate : Option String
  warnings : Option (List String)
  confidenceScore : Rat
  localizedAdvice : Option String
  promotionalNote : Option String
deriving DecidableEq, Repr

/-- `z.string().min(1)`. -/
def zReqStr : Option Json → Option String
  | some (.str s) => if 1 ≤ s.length then some s else none
  | _ => none

/-- `z.string().optional()`: absent is accepted (as absent), a present value
must be a string — explicit `null` is rejected. -/
def asOptString : Option Json → Option (Option String)
  | none => some none
  | some (.str s) => some (some s)
  | some _ => none

/-- `z.array(z.string())` element check. -/
def allStrings : List Json → Option (List String)
  | [] => some []
  | .str s :: rest =>
    match allStrings rest with
    | some ss => some (s :: ss)
    | none => none
  | _ => none

/-- `z.array(z.string())` on a required field. -/
def zStrArr : Option Json → Option (List String)
  | some (.arr xs) => allStrings xs
  | _ => none

/-- The `.min(1)` length bound on `keyIngredients`. -/
def zMin1 (l : List String) : Option (List String) :=
  if 1 ≤ l.length then some l else none

/-- `z.array(z.string()).optional()`. -/
def zOptStrArr : Option Json → Option (Option (List String))
  | none => some none
  | some (.arr xs) =>
    match allStrings xs with
    | some ss => some (some ss)
    | none => none
  | some _ => none

/-- `z.number().min(0).max(100)`. -/
def zScore : Option Json → Option Rat
  | some (.num q) => if 0 ≤ q ∧ q ≤ 100 then some q else none
  | _ => none

/-- `DrinkAnalysisSchema.safeParse`: strict field validation; unknown keys
are stripped (Zod's default), so the result never carries `error`/`message`
keys of its own. `none` models `success: false`. -/
def safeParse (j : Json) : Option DrinkAnalysis :=
  match j with
  | .obj fs => do
    let bn ← zReqStr (jlookup fs "brandName")
    let pt ← zReqStr (jlookup fs "productType")
    let man ← asOptString (jlookup fs "manufacturer")
    let kiList ← zStrArr (jlookup fs "keyIngredients")
    let ki ← zMin1 kiList
    let ed ← asOptString (jlookup fs "expiryDate")
    let wa ← zOptStrArr (jlookup fs "warnings")
    let cs ← zScore (jlookup fs "confidenceScore")
    let la ← asOptString (jlookup fs "localizedAdvice")
    let pn ← asOptString (jlookup fs "promotionalNote")
    some ⟨bn, pt, man, ki, ed, wa, cs, la, pn⟩
  | _ => none

/-- Modelled rendering of `JSON.stringify(valid.error.format(), null, 2)`:
lists the schema checks that failed, echoing the schema's custom messages.
No claim depends on the exact zod formatting — only on this diagnostic being
attached behind a fixed non-empty prefix and never overriding an earlier
reason. -/
def zodErrorDesc (j : Json) : String :=
  match j with
  | .obj fs =>
    let issues := List.filterMap (fun x => x)
      [ if (zReqStr (jlookup fs "brandName")).isNone then some "brandName required" else none,
        if (zReqStr (jlookup fs "productType")).isNone then some "productType required" else none,
        if ((zStrArr (jlookup fs "keyIngredients")).bind zMin1).isNone then
          some "at least one ingredient required" else none,
        if (zScore (jlookup fs "confidenceScore")).isNone then
          some "confidenceScore invalid" else none,
        if (asOptString (jlookup fs "manufacturer")).isNone then
          some "manufacturer invalid" else none,
        if (asOptString (jlookup fs "expiryDate")).isNone then
          some "expiryDate invalid" else none,
        if (zOptStrArr (jlookup fs "warnings")).isNone then
          some "warnings invalid" else none,
        if (asOptString (jlookup fs "localizedAdvice")).isNone then
          some "localizedAdvice invalid" else none,
        if (asOptString (jlookup fs "promotionalNote")).isNone then
          some "promotionalNote invalid" else none ]
    String.intercalate "; " issues
  | _ => "Expected object, received other"

/-! ### The normalization pipeline inside `analyzeDrinkWithVertex`
(brandScanner.js lines 130–268, after the model call) -/

/-- The object the pipeline always returns. `Option` fields distinguish a
key that is absent from the JavaScript object (`none`) from one present with
a value; `message = none` is the explicit `message: null`. `keyIngredients`
and `warnings` carry raw JSON elements because the defaulting path copies
arrays through without checking their element types. -/
structure AnalysisResult where
  error : Bool
  message : Option String
  brandName : String
  productType : String
  manufacturer : Option String
  keyIngredients : List Json
  expiryDate : Option String
  warnings : Option (List Json)
  confidenceScore : Rat
  localizedAdvice : Option String
  promotionalNote : Option String
  details : Option String := none

/-- Plain property access guarded by a truthiness test already performed. -/
def optRawGet : Option Json → String → Option Json
  | some v, k => rawGet v k
  | none, _ => none

/-- `finishReason !== 'STOP'` negated: is the finish reason exactly the
string `STOP`? -/
def isStopReason : Option Json → Bool
  | some (.str s) => s = "STOP"
  | _ => false

/-- Lines 136–142: the API-feedback / finish-reason diagnostic, recorded
before any parse attempt. -/
def initialReason (response : Json) : Option String :=
  if jsTruthyOpt (jsGet (respBase response) "promptFeedback") &&
     (jsTruthyOpt (optRawGet (jsGet (respBase response) "promptFeedback") "blockReason") ||
      jsTruthyOpt (optRawGet (jsGet (respBase response) "promptFeedback") "safetyRatings")) then
    some ("API feedback: " ++ stringifyJson
      (match jsGet (respBase response) "promptFeedback" with | some f => f | none => .null))
  else if jsTruthyOpt (jsGet (firstCandidate response) "finishReason") &&
      !isStopReason (jsGet (firstCandidate response) "finishReason") then
    some ("Generation stopped: " ++ jsTemplate
      (match jsGet (firstCandidate response) "finishReason" with | some v => v | none => .null))
  else none

/-- Lines 145–148: fall back to the no-candidate diagnostic when extraction
yielded nothing. -/
def reasonAfterExtract (response : Json) : Option String :=
  if ¬ jsTruthyOpt (extractModelText response) then
    (initialReason response).orElse (fun _ => some "No candidate text found in AI response")
  else initialReason response

/-- Line 150: `rawTextCandidate ? cleanJsonResponse(rawTextCandidate) : ''`. -/
def cleanedText (response : Json) : Json :=
  match extractModelText response with
  | some v => if jsTruthy v then cleanJsonResponse v else .str ""
  | none => .str ""

/-- The regex `/\x7b[\s\S]*\x7d$/m` (line 161): from the first opening brace
to the last closing brace that ends a line (greedy, multiline `$`). -/
def lastBraceMatch (s : String) : Option String :=
  let cs := s.toList
  match cs.findIdx? (fun c => c = Char.ofNat 123) with
  | some i =>
    let closers := (List.range cs.length).filter (fun j =>
      (cs.get? j == some (Char.ofNat 125)) &&
      (j + 1 == cs.length || cs.get? (j + 1) == some (Char.ofNat 10)))
    match (closers.filter (fun j => i < j)).getLast? with
    | some j => some (String.mk ((cs.drop i).take (j - i + 1)))
    | none => none
  | none => none

/-- Lines 152–170: the guarded `JSON.parse` attempts. Returns the parsed
value (`none` for `null`) and the updated diagnostic reason. A non-string
`cleaned` throws a `TypeError` inside the same `try` (at `cleaned.trim` when
truthy, at `cleaned.match` when falsy), landing in the same `catch`; the
modelled error texts matter only through their non-empty fixed prefix. -/
def tryParse (cleaned : Json) (reason : Option String) : Option Json × Option String :=
  match cleaned with
  | .str s =>
    if s ≠ "" ∧ (strStartsWith (jsTrim s) "\x7b" ∨ strStartsWith (jsTrim s) "[") then
      match parseJson s with
      | some j => (some j, reason)
      | none =>
        (none, reason.orElse (fun _ =>
          some "Malformed JSON returned by AI: Unexpected token in JSON"))
    else
      match lastBraceMatch s with
      | some sub =>
        match parseJson sub with
        | some j => (some j, reason)
        | none =>
          (none, reason.orElse (fun _ =>
            some "Malformed JSON returned by AI: Unexpected token in JSON"))
      | none => (none, reason)
  | v =>
    if jsTruthy v then
      (none, reason.orElse (fun _ =>
        some "Malformed JSON returned by AI: cleaned.trim is not a function"))
    else
      (none, reason.orElse (fun _ =>
        some "Malformed JSON returned by AI: cleaned.match is not a function"))

/-- Inner loop of lines 186–194: the first part object with no `text` key
(`p.text === undefined`; an explicit `null` does not count as undefined). -/
def scanParts : List Json → Option Json
  | [] => none
  | p :: rest =>
    if isObjLike p && (rawGet p "text").isNone then some p else scanParts rest

/-- Lines 176–197: scan the content array. An element that looks like the
payload breaks the loop; otherwise its `parts` may (re)assign the candidate
and the loop continues, so a later element's parts overwrite an earlier
assignment — the accumulator threads exactly that. -/
def scanContent : List Json → Option Json → Option Json
  | [], acc => acc
  | el :: rest, acc =>
    if isObjLike el then
      if jsTruthyOpt (rawGet el "brandName") || jsTruthyOpt (rawGet el "productType") ||
         jsTruthyOpt (rawGet el "keyIngredients") then
        some el
      else
        let acc2 :=
          match rawGet el "parts" with
          | some (.arr ps) =>
            match scanParts ps with
            | some p => some p
            | none => acc
          | _ => acc
        scanContent rest acc2
    else scanContent rest acc

/-- Lines 172–198: the structural fallback over the raw content array, run
only while `parsed` is falsy. -/
def parsedAfterContent (response : Json) (p : Option Json) : Option Json :=
  if jsTruthyOpt p then p
  else
    match jsGet (firstCandidate response) "content" with
    | some (.arr els) => scanContent els p
    | _ => p

/-- `Object.keys(v).length` for the modelled values (array keys are its
indices; runtime objects here carry no duplicate keys). -/
def jsKeyCount : Json → Nat
  | .obj fs => fs.length
  | .arr xs => xs.length
  | _ => 0

/-- Lines 200–206: the last fallback, adopting `content.parts[0]` when it is
a non-empty object. -/
def parsedFinal (response : Json) (p : Option Json) : Option Json :=
  if jsTruthyOpt p then p
  else
    match jsIdx0 (jsGet (jsGet (firstCandidate response) "content") "parts") with
    | some v => if jsTruthy v && isObjLike v && 0 < jsKeyCount v then some v else p
    | none => p

/-- The candidate payload after all parse and fallback steps. -/
def pipelineParsed (response : Json) : Option Json :=
  parsedFinal response
    (parsedAfterContent response
      (tryParse (cleanedText response) (reasonAfterExtract response)).1)

/-- The diagnostic reason after the parse step (steps 3/4 of the spec). -/
def pipelineReason (response : Json) : Option String :=
  (tryParse (cleanedText response) (reasonAfterExtract response)).2

/-- Lines 222–228: the success path `{ error: false, message: null,
...validated }`. Zod strips unknown keys, so the spread adds exactly the
schema fields that were present in the input; absent optional fields remain
absent. -/
def resultOfValidated (d : DrinkAnalysis) : AnalysisResult :=
  { error := false
    message := none
    brandName := d.brandName
    productType := d.productType
    manufacturer := d.manufacturer
    keyIngredients := d.keyIngredients.map Json.str
    expiryDate := d.expiryDate
    warnings := d.warnings.map (fun ws => ws.map Json.str)
    confidenceScore := d.confidenceScore
    localizedAdvice := d.localizedAdvice
    promotionalNote := d.promotionalNote
    details := none }

/-- `typeof safeParsed.k === 'string' ? safeParsed.k : ''`. -/
def jsStrField (sp : Json) (k : String) : String :=
  match rawGet sp k with
  | some (.str s) => s
  | _ => ""

/-- Line 239–241: a non-empty source array is copied as-is (elements
unchecked), anything else becomes the sentinel. -/
def defaultKeyIngredients (sp : Json) : List Json :=
  match rawGet sp "keyIngredients" with
  | some (.arr xs) => if 0 < xs.length then xs else [.str "ingredient_unavailable"]
  | _ => [.str "ingredient_unavailable"]

/-- Line 243: `Array.isArray(safeParsed.warnings) ? safeParsed.warnings : []`. -/
def defaultWarnings (sp : Json) : List Json :=
  match rawGet sp "warnings" with
  | some (.arr xs) => xs
  | _ => []

/-- Line 244: a numeric value is copied through unclamped, else 0. -/
def defaultScore (sp : Json) : Rat :=
  match rawGet sp "confidenceScore" with
  | some (.num q) => q
  | _ => 0

/-- `safeParsed = parsed || \x7b\x7d`. -/
def forceObj (parsed : Option Json) : Json :=
  match parsed with
  | some v => if jsTruthy v then v else .obj []
  | none => .obj []

/-- `r || dflt` on a string-or-null left operand: the empty string is falsy
and also falls back to the default. -/
def jsOrElseStr (r : Option String) (dflt : String) : String :=
  match r with
  | some s => if s = "" then dflt else s
  | none => dflt

/-- Lines 230–249: the defaulting path. Each field is copied when
independently type-correct at the JavaScript level, else defaulted; `error`
is true and `message` the recorded reason or the fallback text. -/
def defaultingResult (parsed : Option Json) (reason : Option String) : AnalysisResult :=
  let sp : Json := forceObj parsed
  { error := true
    message := some (jsOrElseStr reason "AI parsing/validation failed")
    brandName := jsStrField sp "brandName"
    productType := jsStrField sp "productType"
    manufacturer := some (jsStrField sp "manufacturer")
    keyIngredients := defaultKeyIngredients sp
    expiryDate := some (jsStrField sp "expiryDate")
    warnings := some (defaultWarnings sp)
    confidenceScore := defaultScore sp
    localizedAdvice := some (jsStrField sp "localizedAdvice")
    promotionalNote := some (jsStrField sp "promotionalNote")
    details := none }

/-- The parsed candidate as a value (`null` when absent, as in JS). -/
def forcedParsed (response : Json) : Json :=
  match pipelineParsed response with
  | some v => v
  | none => .null

/-- Lines 209–219: `if (parsed) { DrinkAnalysisSchema.safeParse(parsed) }` —
validation runs only on a truthy candidate. -/
def pipelineValidated (response : Json) : Option DrinkAnalysis :=
  if jsTruthyOpt (pipelineParsed response) then safeParse (forcedParsed response)
  else none

/-- The diagnostic reason after the validation step: a zod failure appends
its description only when a truthy candidate failed validation, and never
overrides an earlier reason. -/
def finalReason (response : Json) : Option String :=
  if jsTruthyOpt (pipelineParsed response) ∧ (pipelineValidated response).isNone then
    (pipelineReason response).orElse (fun _ =>
      some ("Schema validation failed: " ++ zodErrorDesc (forcedParsed response)))
  else pipelineReason response

/-- The Response Normalizer: the whole post-model-call section of
`analyzeDrinkWithVertex` (lines 130–250) as a total function of the model
response value. -/
def normalizeResponse (response : Json) : AnalysisResult :=
  match pipelineValidated response with
  | some d => resultOfValidated d
  | none => defaultingResult (pipelineParsed response) (finalReason response)

/-- A thrown JavaScript error as seen by the catch handlers. -/
structure JsError where
  message : String
  stack : String
deriving DecidableEq, Repr

/-- Lines 251–268: the outer catch — safe defaults on catastrophic failure
(file read or model-call exception). -/
def catchResult (e : JsError) : AnalysisResult :=
  { error := true
    message := some (if e.message ≠ "" then e.message else "AI analysis failed")
    details := some e.stack
    brandName := ""
    productType := ""
    manufacturer := some ""
    keyIngredients := [.str "ingredient_unavailable"]
    expiryDate := some ""
    warnings := some []
    confidenceScore := 0
    localizedAdvice := some ""
    promotionalNote := some "" }

/-- `analyzeDrinkWithVertex` as a function of the outcome of the effectful
prefix (`fs.readFileSync` + `model.generateContent`): an exception there is
the only way into the outer catch, since the normalization section itself is
total. -/
def analyzeDrinkWithVertex : Except JsError Json → AnalysisResult
  | .error e => catchResult e
  | .ok response => normalizeResponse response

/-! ### HTTP route handlers (`routes/brand.js`, `routes/profile.js`)

Each handler is a function of the request data and an environment record
fixing the outcome of every external call (object storage, document store,
analyzer). A handler result is the HTTP response plus the ordered list of
external operations it performed — an operation appears in the list exactly
when the corresponding call was made. -/

structure HttpResp where
  status : Nat
  body : Json

/-- External operations a request handler can perform. -/
inductive RouteEvt where
  | uploadImage
  | addScan
  | fetchUser
  | callAnalyzer
  | updateScan
  | updateScanFailedLogged
  | unlinkTmp
  | addProfile
deriving DecidableEq, Repr

/-- `{ error: true, message }` bodies of the 400/404 rejections. -/
def errBody (msg : String) : Json :=
  .obj [("error", .bool true), ("message", .str msg)]

/-- The 500 catch body `{ error: true, message, stack, details }` (an
`Error` serializes to an empty object under `JSON.stringify`). -/
def catchBody (e : JsError) : Json :=
  .obj [("error", .bool true), ("message", .str e.message), ("stack", .str e.stack),
        ("details", .obj [])]

/-- `req.body.userId` truthiness (`if (!userId)`). -/
def jsTruthyStrOpt : Option String → Bool
  | none => false
  | some s => s ≠ ""

/-- The uploaded file's metadata (`req.file`). -/
structure FileInfo where
  path : String
  originalname : String
  mimetype : String
deriving DecidableEq, Repr

/-- The multipart request data both scan routes consume. -/
structure ScanRequest where
  userId : Option String
  file : Option FileInfo
deriving DecidableEq, Repr

/-- An `AnalysisResult` as the JavaScript object it denotes, for embedding
into response bodies. Absent (`none`-valued optional) fields are omitted;
`message = none` is the JSON null. -/
def analysisToJson (r : AnalysisResult) : Json :=
  .obj (List.filterMap (fun x => x)
    [ some ("error", .bool r.error),
      some ("message", match r.message with | some s => .str s | none => .null),
      some ("brandName", .str r.brandName),
      some ("productType", .str r.productType),
      r.manufacturer.map (fun s => ("manufacturer", Json.str s)),
      some ("keyIngredients", .arr r.keyIngredients),
      r.expiryDate.map (fun s => ("expiryDate", Json.str s)),
      r.warnings.map (fun ws => ("warnings", Json.arr ws)),
      some ("confidenceScore", .num r.confidenceScore),
      r.localizedAdvice.map (fun s => ("localizedAdvice", Json.str s)),
      r.promotionalNote.map (fun s => ("promotionalNote", Json.str s)),
      r.details.map (fun s => ("details", Json.str s)) ])

/-- `s || "Unknown"`. -/
def orUnknown (s : String) : String := if s = "" then "Unknown" else s

/-- brand.js lines 65–77: re-normalize the analyzer result "for frontend
consistency". `keyIngredients`/`confidenceScore` keep their values (they are
always an array / a number in every `analyzeDrinkWithVertex` result); the
rebuilt literal carries no `details` member. -/
def ensureFields (r : AnalysisResult) : AnalysisResult :=
  { brandName := orUnknown r.brandName
    productType := orUnknown r.productType
    manufacturer := some (r.manufacturer.getD "")
    keyIngredients := r.keyIngredients
    expiryDate := some (r.expiryDate.getD "")
    warnings := some (r.warnings.getD [])
    confidenceScore := r.confidenceScore
    localizedAdvice := some (r.localizedAdvice.getD "")
    promotionalNote := some (r.promotionalNote.getD "")
    error := r.error
    message := match r.message with | some s => if s = "" then none else some s | none => none
    details := none }

/-- brand.js lines 81–93: the fallback result when the analyzer call itself
rejects. -/
def scanBrandAnalyzeFallback (e : JsError) : AnalysisResult :=
  { brandName := "Unknown"
    productType := "Unknown"
    manufacturer := some ""
    keyIngredients := []
    expiryDate := some ""
    warnings := some []
    confidenceScore := 0
    localizedAdvice := some ""
    promotionalNote := some ""
    error := true
    message := some e.message
    details := none }

/-- The 200 body `{ status, scanId, imageUrl, aiResult }`. -/
def scanRespBody (statusText scanId imageUrl : String) (ai : AnalysisResult) : Json :=
  .obj [("status", .str statusText), ("scanId", .str scanId),
        ("imageUrl", .str imageUrl), ("aiResult", analysisToJson ai)]

/-- Outcomes of the external calls `POST /api/scan-brand` makes. -/
structure ScanBrandEnv where
  upload : Except JsError Unit
  addScan : Except JsError String
  analyze : Except JsError AnalysisResult
  updateScan : Except JsError Unit
  bucketName : String
  nowStr : String

/-- Lines 59–94: the analyzer call with its own try/catch, followed by the
"ensure all fields" re-normalization. -/
def scanBrandAiResult (env : ScanBrandEnv) : AnalysisResult :=
  match env.analyze with
  | .ok r => ensureFields r
  | .error e => scanBrandAnalyzeFallback e

/-- `POST /api/scan-brand` (brand.js lines 25–129). The firestore update is
wrapped in its own try/catch: its failure is logged and swallowed and the
200 response still goes out. -/
def scanBrandHandler (env : ScanBrandEnv) (req : ScanRequest) : HttpResp × List RouteEvt :=
  if ¬ jsTruthyStrOpt req.userId then
    ({ status := 400, body := errBody "User ID is required" }, [])
  else
    match req.file with
    | none => ({ status := 400, body := errBody "No image uploaded" }, [])
    | some f =>
      let fileName := "scans/" ++ req.userId.getD "" ++ "/" ++ env.nowStr ++ "_" ++ f.originalname
      let imageUrl := "https://storage.googleapis.com/" ++ env.bucketName ++ "/" ++ fileName
      match env.upload with
      | .error e => ({ status := 500, body := catchBody e }, [.uploadImage, .unlinkTmp])
      | .ok _ =>
        match env.addScan with
        | .error e => ({ status := 500, body := catchBody e }, [.uploadImage, .addScan, .unlinkTmp])
        | .ok scanId =>
          let aiResult : AnalysisResult := scanBrandAiResult env
          let statusText := if aiResult.error then "AI analysis failed" else "Scan analyzed"
          let resp : HttpResp :=
            { status := 200, body := scanRespBody statusText scanId imageUrl aiResult }
          match env.updateScan with
          | .error _ =>
            (resp, [.uploadImage, .addScan, .callAnalyzer, .updateScan,
                    .updateScanFailedLogged, .unlinkTmp])
          | .ok _ =>
            (resp, [.uploadImage, .addScan, .callAnalyzer, .updateScan, .unlinkTmp])

/-- Outcomes of the external calls `POST /api/scan` makes. `getUser`
resolving to `none` models `!userDoc.exists`; the analyzer here is
`analyzeImageWithVertex` of aiAnalyzer.js, opaque to these claims, so its
resolved value is an arbitrary JSON value. -/
structure ApiScanEnv where
  upload : Except JsError Unit
  addScan : Except JsError String
  getUser : Except JsError (Option Json)
  analyze : Except JsError Json
  updateScan : Except JsError Unit
  bucketName : String
  nowStr : String

/-- `POST /api/scan` (brand.js second router, lines 156–231). Note the
order: storage upload and the pending scan record are written before the
user profile is fetched, and the firestore update has no inner try/catch —
its failure reaches the outer catch and turns into a 500. -/
def apiScanHandler (env : ApiScanEnv) (req : ScanRequest) : HttpResp × List RouteEvt :=
  if ¬ jsTruthyStrOpt req.userId then
    ({ status := 400, body := errBody "User ID is required" }, [])
  else
    match req.file with
    | none => ({ status := 400, body := errBody "No image uploaded" }, [])
    | some f =>
      let fileName := "scans/" ++ req.userId.getD "" ++ "/" ++ env.nowStr ++ "_" ++ f.originalname
      let imageUrl := "https://storage.googleapis.com/" ++ env.bucketName ++ "/" ++ fileName
      match env.upload with
      | .error e => ({ status := 500, body := catchBody e }, [.uploadImage, .unlinkTmp])
      | .ok _ =>
        match env.addScan with
        | .error e => ({ status := 500, body := catchBody e }, [.uploadImage, .addScan, .unlinkTmp])
        | .ok scanId =>
          match env.getUser with
          | .error e =>
            ({ status := 500, body := catchBody e },
             [.uploadImage, .addScan, .fetchUser, .unlinkTmp])
          | .ok none =>
            ({ status := 404, body := errBody "User profile not found" },
             [.uploadImage, .addScan, .fetchUser, .unlinkTmp])
          | .ok (some _profile) =>
            match env.analyze with
            | .error e =>
              ({ status := 500, body := catchBody e },
               [.uploadImage, .addScan, .fetchUser, .callAnalyzer, .unlinkTmp])
            | .ok aiResult =>
              match env.updateScan with
              | .error e =>
                ({ status := 500, body := catchBody e },
                 [.uploadImage, .addScan, .fetchUser, .callAnalyzer, .updateScan, .unlinkTmp])
              | .ok _ =>
                ({ status := 200,
                   body := .obj [("status", .str "Scan analyzed"), ("scanId", .str scanId),
                                 ("imageUrl", .str imageUrl), ("aiResult", aiResult)] },
                 [.uploadImage, .addScan, .fetchUser, .callAnalyzer, .updateScan, .unlinkTmp])

/-- Outcome of the document-store write `POST /api/profile` makes. -/
structure ProfileEnv where
  addProfile : Except JsError String

/-- A profile request either gets an HTTP response, or crashes on an
uncaught `TypeError` (destructuring a null body, or `name.trim` on a truthy
non-string) with no response sent. -/
inductive ProfileOutcome where
  | resp (r : HttpResp)
  | crash

/-- Is the value the JSON null? -/
def isNullJson : Json → Bool
  | .null => true
  | _ => false

/-- `POST /api/profile` (profile.js lines 17–54). The name check runs before
the try block; only a validated request reaches the document-store write.
Destructuring a literal-`null` body throws before anything else. -/
def profileHandler (env : ProfileEnv) (body : Json) : ProfileOutcome × List RouteEvt :=
  if isNullJson body then (.crash, [])
  else
  match rawGet body "name" with
  | some (.str s) =>
    if s = "" ∨ jsTrim s = "" then
      (.resp { status := 400, body := .obj [("error", .str "Name is required")] }, [])
    else
      match env.addProfile with
      | .ok pid =>
        (.resp { status := 200,
                 body := .obj [("status", .str "Profile saved"),
                               ("profileId", .str pid), ("name", .str s)] },
         [.addProfile])
      | .error _ =>
        (.resp { status := 500, body := .obj [("error", .str "Error saving profile")] },
         [.addProfile])
  | some v =>
    if jsTruthy v then (.crash, [])
    else (.resp { status := 400, body := .obj [("error", .str "Name is required")] }, [])
  | none =>
    (.resp { status := 400, body := .obj [("error", .str "Name is required")] }, [])

/-! ### Concrete inputs used by witnesses and counterexamples -/

/-- A model response in the modern shape, carrying one candidate whose
first part holds the given text. -/
def mkTextResponse (t : String) : Json :=
  .obj [("response", .obj [("candidates", .arr [
    .obj [("content", .obj [("parts", .arr [.obj [("text", .str t)]])])]])])]

/-- The spec's scenario A input text: the Fanta payload in ```json fences. -/
def scenarioAText : String :=
  "```json\n\x7b\"brandName\":\"Fanta\",\"productType\":\"Soda\",\"keyIngredients\":[\"sugar\",\"water\"],\"confidenceScore\":85\x7d\n```"

def scenarioAResponse : Json := mkTextResponse scenarioAText

/-- The payload scenario A's text denotes after validation: the four present
fields, every optional field absent. -/
def fantaPayload : DrinkAnalysis :=
  ⟨"Fanta", "Soda", none, ["sugar", "water"], none, none, 85, none, none⟩

/-- A syntactically valid payload whose `confidenceScore` exceeds the
schema's bound. -/
def overScoreResponse : Json :=
  mkTextResponse
    "\x7b\"brandName\":\"X\",\"productType\":\"Y\",\"keyIngredients\":[\"a\"],\"confidenceScore\":150\x7d"

/-- A payload whose `keyIngredients` array holds a number, not a string. -/
def badIngredientsResponse : Json :=
  mkTextResponse "\x7b\"keyIngredients\":[42]\x7d"

/-- A response with one candidate that is JSON `null`. -/
def nullCandidateResponse : Json :=
  .obj [("response", .obj [("candidates", .arr [.null])])]

/-- A blocked response: `promptFeedback.blockReason` set, no candidates. -/
def blockedResponse : Json :=
  .obj [("response", .obj [("promptFeedback", .obj [("blockReason", .str "SAFETY")]),
                           ("candidates", .arr [])])]

/-- Is the value a JSON string? -/
def isStrJson : Json → Bool
  | .str _ => true
  | _ => false

/-! ### Helper lemmas -/

theorem append_ne_empty_left {a : String} (b : String) (ha : a ≠ "") : a ++ b ≠ "" := by
  intro h
  apply ha
  have hd := congrArg String.data h
  rw [String.data_append] at hd
  have h0 : a.data = [] := (List.append_eq_nil.mp hd).1
  exact String.ext h0

theorem safeParse_obj {j : Json} {d : DrinkAnalysis} (h : safeParse j = some d) :
    ∃ fs, j = .obj fs := by
  cases j with
  | obj fs => exact ⟨fs, rfl⟩
  | null => exact absurd h (by simp [safeParse])
  | bool b => exact absurd h (by simp [safeParse])
  | num q => exact absurd h (by simp [safeParse])
  | str s => exact absurd h (by simp [safeParse])
  | arr xs => exact absurd h (by simp [safeParse])

theorem safeParse_fields {j : Json} {d : DrinkAnalysis} (h : safeParse j = some d) :
    (0 ≤ d.confidenceScore ∧ d.confidenceScore ≤ 100) ∧ 1 ≤ d.keyIngredients.length := by
  obtain ⟨fs, rfl⟩ := safeParse_obj h
  simp only [safeParse, Bind.bind, Option.bind_eq_some, Option.some_inj] at h
  obtain ⟨bn, hbn, pt, hpt, man, hman, ki0, hki0, ki, hki, ed, hed, wa, hwa, cs, hcs,
    la, hla, pn, hpn, hd⟩ := h
  subst hd
  refine ⟨?_, ?_⟩
  · unfold zScore at hcs
    split at hcs
    · split at hcs
      · cases hcs
        assumption
      · exact absurd hcs (by simp)
    · exact absurd hcs (by simp)
  · unfold zMin1 at hki
    split at hki
    · cases hki
      assumption
    · exact absurd hki (by simp)

theorem defaultKeyIngredients_nonempty (sp : Json) : defaultKeyIngredients sp ≠ [] := by
  unfold defaultKeyIngredients
  split
  · split
    · intro hc
      simp_all
    · simp
  · simp

/-- Which of its two shapes a normalizer result takes. -/
theorem normalizeResponse_eq_cases (resp : Json) :
    (∃ d, pipelineValidated resp = some d ∧
      normalizeResponse resp = resultOfValidated d) ∨
    (pipelineValidated resp = none ∧
      normalizeResponse resp = defaultingResult (pipelineParsed resp) (finalReason resp)) := by
  unfold normalizeResponse
  cases hv : pipelineValidated resp with
  | some d => exact Or.inl ⟨d, rfl, rfl⟩
  | none => exact Or.inr ⟨rfl, rfl⟩

theorem pipelineValidated_some {resp : Json} {d : DrinkAnalysis}
    (h : pipelineValidated resp = some d) : safeParse (forcedParsed resp) = some d := by
  unfold pipelineValidated at h
  split at h
  · exact h
  · exact absurd h (by simp)

/-! ### C1 -/

set_option maxRecDepth 100000

/-- C1 counterexample: on the Zod success path the optional fields absent
from the payload are absent from the returned object — at the scenario A
input the result has `error = false` but no `manufacturer`, `warnings`,
`expiryDate` members, so consumers do have to null-check fields other than
`error`/`message`. -/
theorem C1_counterexample :
    (normalizeResponse scenarioAResponse).error = false ∧
    (normalizeResponse scenarioAResponse).manufacturer = none ∧
    (normalizeResponse scenarioAResponse).warnings.isNone = true :=
  ⟨by decide, by decide, by decide⟩

/-- C1 amended: on every path that sets `error = true` (the defaulting path
and the outer catch) all `AnalysisResult` fields are present with a
type-correct value; on the success path, optional fields absent from the
validated payload are absent from the output. -/
theorem C1_amended (input : Except JsError Json)
    (h : (analyzeDrinkWithVertex input).error = true) :
    (analyzeDrinkWithVertex input).manufacturer.isSome = true ∧
    (analyzeDrinkWithVertex input).expiryDate.isSome = true ∧
    (analyzeDrinkWithVertex input).warnings.isSome = true ∧
    (analyzeDrinkWithVertex input).localizedAdvice.isSome = true ∧
    (analyzeDrinkWithVertex input).promotionalNote.isSome = true ∧
    (analyzeDrinkWithVertex input).message.isSome = true := by
  cases input with
  | error e => simp [analyzeDrinkWithVertex, catchResult]
  | ok resp =>
    simp only [analyzeDrinkWithVertex] at h ⊢
    rcases normalizeResponse_eq_cases resp with ⟨d, _, heq⟩ | ⟨_, heq⟩
    · rw [heq] at h
      simp [resultOfValidated] at h
    · rw [heq]
      simp [defaultingResult]

/-- C1 amended, witnessed at the null response (defaulting path). -/
theorem C1_amended_witness :
    (analyzeDrinkWithVertex (.ok .null)).error = true ∧
    ((analyzeDrinkWithVertex (.ok .null)).manufacturer.isSome = true ∧
     (analyzeDrinkWithVertex (.ok .null)).expiryDate.isSome = true ∧
     (analyzeDrinkWithVertex (.ok .null)).warnings.isSome = true ∧
     (analyzeDrinkWithVertex (.ok .null)).localizedAdvice.isSome = true ∧
     (analyzeDrinkWithVertex (.ok .null)).promotionalNote.isSome = true ∧
     (analyzeDrinkWithVertex (.ok .null)).message.isSome = true) :=
  ⟨by decide, C1_amended (.ok .null) (by decide)⟩

/-! ### C2 -/

/-- C2 counterexample: scenario A does not produce the spec's expected
object — the optional fields are not defaulted to `""`/`[]` but are absent
(`none`), while the claim requires `expiryDate = ""`, `localizedAdvice =
""`, `promotionalNote = ""` to be present. -/
theorem C2_counterexample :
    (normalizeResponse scenarioAResponse).error = false ∧
    (normalizeResponse scenarioAResponse).expiryDate = none ∧
    (normalizeResponse scenarioAResponse).localizedAdvice = none ∧
    (normalizeResponse scenarioAResponse).promotionalNote = none :=
  ⟨by decide, by decide, by decide, by decide⟩

/-- C2 amended: whenever the pipeline's candidate payload passes schema
validation, the normalizer returns exactly the payload's field values with
`error = false` and `message = null` — the identity transform modulo
fence-stripping — but optional fields absent from the payload are absent
from the output, not substituted with defaults. -/
theorem C2_amended (resp : Json) (d : DrinkAnalysis)
    (h : safeParse (forcedParsed resp) = some d) :
    normalizeResponse resp = resultOfValidated d := by
  have ht : jsTruthyOpt (pipelineParsed resp) = true := by
    obtain ⟨fs, hfs⟩ := safeParse_obj h
    unfold forcedParsed at hfs
    cases hp : pipelineParsed resp with
    | none =>
      rw [hp] at hfs
      exact absurd hfs (by simp)
    | some v =>
      rw [hp] at hfs
      subst hfs
      simp [jsTruthyOpt, jsTruthy]
  have hv : pipelineValidated resp = some d := by
    unfold pipelineValidated
    rw [ht]
    simpa using h
  rcases normalizeResponse_eq_cases resp with ⟨d2, hv2, heq⟩ | ⟨hv2, _⟩
  · rw [hv] at hv2
    cases hv2
    exact heq
  · rw [hv] at hv2
    exact absurd hv2 (by simp)

/-- C2 amended, witnessed at scenario A: the Fanta payload round-trips. -/
theorem C2_amended_witness :
    safeParse (forcedParsed scenarioAResponse) = some fantaPayload ∧
    normalizeResponse scenarioAResponse = resultOfValidated fantaPayload :=
  ⟨by decide, C2_amended scenarioAResponse fantaPayload (by decide)⟩

/-! ### C3 -/

/-- C3 counterexample: a payload carrying `confidenceScore: 150` fails
validation, and the defaulting path copies the out-of-range number through
unclamped — the returned `confidenceScore` is 150, outside `[0, 100]`. -/
theorem C3_counterexample :
    (normalizeResponse overScoreResponse).error = true ∧
    (normalizeResponse overScoreResponse).confidenceScore = 150 ∧
    ¬ (normalizeResponse overScoreResponse).confidenceScore ≤ 100 :=
  ⟨by decide, by decide, by decide⟩

/-- C3 amended: `confidenceScore` lies in `[0, 100]` whenever `error =
false` (the Zod-validated path enforces the bounds); on the defaulting path
a numeric `confidenceScore` from the candidate payload is passed through
unclamped, and a non-numeric one becomes 0. -/
theorem C3_amended (input : Except JsError Json)
    (h : (analyzeDrinkWithVertex input).error = false) :
    0 ≤ (analyzeDrinkWithVertex input).confidenceScore ∧
    (analyzeDrinkWithVertex input).confidenceScore ≤ 100 := by
  cases input with
  | error e => simp [analyzeDrinkWithVertex, catchResult] at h
  | ok resp =>
    simp only [analyzeDrinkWithVertex] at h ⊢
    rcases normalizeResponse_eq_cases resp with ⟨d, hv, heq⟩ | ⟨_, heq⟩
    · rw [heq]
      exact (safeParse_fields (pipelineValidated_some hv)).1
    · rw [heq] at h
      simp [defaultingResult] at h

/-- C3 amended, witnessed at scenario A (validated path, score 85). -/
theorem C3_amended_witness :
    (analyzeDrinkWithVertex (.ok scenarioAResponse)).error = false ∧
    (0 ≤ (analyzeDrinkWithVertex (.ok scenarioAResponse)).confidenceScore ∧
     (analyzeDrinkWithVertex (.ok scenarioAResponse)).confidenceScore ≤ 100) :=
  ⟨by decide, C3_amended (.ok scenarioAResponse) (by decide)⟩

/-! ### C4 -/

/-- C4 counterexample: a payload with `keyIngredients: [42]` fails
validation, and the defaulting path passes the non-empty array through with
its non-string element — the output's `keyIngredients` is non-empty but not
a sequence of strings. -/
theorem C4_counterexample :
    (normalizeResponse badIngredientsResponse).keyIngredients.isEmpty = false ∧
    (normalizeResponse badIngredientsResponse).keyIngredients.all isStrJson = false :=
  ⟨by decide, by decide⟩

/-- C4 amended: `keyIngredients` in the output is never empty — the sentinel
`["ingredient_unavailable"]` is substituted when the source array is empty
or missing — and its elements are all strings on the Zod-validated path; on
the defaulting path a non-empty source array is copied as-is and may hold
non-strings. -/
theorem C4_amended (input : Except JsError Json) :
    (analyzeDrinkWithVertex input).keyIngredients ≠ [] ∧
    ((analyzeDrinkWithVertex input).error = false →
      (analyzeDrinkWithVertex input).keyIngredients.all isStrJson = true) := by
  cases input with
  | error e =>
    refine ⟨by simp [analyzeDrinkWithVertex, catchResult], ?_⟩
    intro h
    simp [analyzeDrinkWithVertex, catchResult] at h
  | ok resp =>
    simp only [analyzeDrinkWithVertex]
    rcases normalizeResponse_eq_cases resp with ⟨d, hv, heq⟩ | ⟨_, heq⟩
    · rw [heq]
      have hlen := (safeParse_fields (pipelineValidated_some hv)).2
      constructor
      · simp only [resultOfValidated]
        intro hc
        rw [List.map_eq_nil_iff] at hc
        rw [hc] at hlen
        simp at hlen
      · intro _
        simp only [resultOfValidated]
        rw [List.all_eq_true]
        intro x hx
        rw [List.mem_map] at hx
        obtain ⟨s, _, rfl⟩ := hx
        rfl
    · rw [heq]
      refine ⟨?_, ?_⟩
      · simp only [defaultingResult]
        exact defaultKeyIngredients_nonempty _
      · intro h
        simp [defaultingResult] at h

/-- C4 amended, witnessed at scenario A. -/
theorem C4_amended_witness :
    (analyzeDrinkWithVertex (.ok scenarioAResponse)).keyIngredients ≠ [] ∧
    (analyzeDrinkWithVertex (.ok scenarioAResponse)).keyIngredients.all isStrJson = true :=
  ⟨(C4_amended (.ok scenarioAResponse)).1, (C4_amended (.ok scenarioAResponse)).2 (by decide)⟩

/-! ### C5 -/

/-- The claim's "the response contains candidates": a non-empty
`response.candidates` array. (Stated from the spec's words, for comparison
with what extraction actually requires.) -/
def hasCandidates (resp : Json) : Bool :=
  match jsGet (respBase resp) "candidates" with
  | some (.arr xs) => !xs.isEmpty
  | _ => false

theorem jsTruthyOpt_some {x : Option Json} (h : jsTruthyOpt x = true) : ∃ v, x = some v := by
  cases x with
  | none => simp [jsTruthyOpt] at h
  | some v => exact ⟨v, rfl⟩

theorem jsGet_some_truthy {x : Option Json} {k : String} {w : Json}
    (h : jsGet x k = some w) : jsTruthyOpt x = true := by
  cases x with
  | none => simp [jsGet] at h
  | some v =>
    cases v with
    | obj fs => rfl
    | null => simp [jsGet] at h
    | bool b => simp [jsGet, rawGet] at h
    | num q => simp [jsGet, rawGet] at h
    | str s => simp [jsGet, rawGet] at h
    | arr xs => simp [jsGet, rawGet] at h

theorem jsIdx0_some_truthy {x : Option Json} {w : Json}
    (h : jsIdx0 x = some w) : jsTruthyOpt x = true := by
  cases x with
  | none => simp [jsIdx0] at h
  | some v =>
    cases v with
    | null => simp [jsIdx0] at h
    | bool b => simp [jsIdx0] at h
    | num q => simp [jsIdx0] at h
    | arr xs => rfl
    | obj fs => rfl
    | str s =>
      simp only [jsTruthyOpt, jsTruthy]
      rcases eq_or_ne s "" with rfl | hne
      · exact absurd h (by simp [jsIdx0])
      · simp [hne]

/-- A truthy value at the end of a `content.parts[0].text`-style chain
forces a truthy chain root. -/
theorem chain_root_truthy {cand0 : Option Json} {mid : Option Json}
    (hmid : jsTruthyOpt (jsGet (jsIdx0 mid) "text") = true)
    (hm : mid = jsGet cand0 "content" ∨
          ∃ k, mid = jsGet (jsGet cand0 "content") k) :
    jsTruthyOpt cand0 = true := by
  obtain ⟨w, hw⟩ := jsTruthyOpt_some hmid
  have h1 : jsTruthyOpt (jsIdx0 mid) = true := jsGet_some_truthy hw
  obtain ⟨w2, hw2⟩ := jsTruthyOpt_some h1
  have h2 : jsTruthyOpt mid = true := jsIdx0_some_truthy hw2
  obtain ⟨w3, hw3⟩ := jsTruthyOpt_some h2
  rcases hm with rfl | ⟨k, rfl⟩
  · exact jsGet_some_truthy hw3
  · have h3 : jsTruthyOpt (jsGet cand0 "content") = true := jsGet_some_truthy hw3
    obtain ⟨w4, hw4⟩ := jsTruthyOpt_some h3
    exact jsGet_some_truthy hw4

/-- C5 counterexample: a response whose candidate list is non-empty — it
contains the single candidate `null` — but where text extraction still
yields nothing, against the claim that extraction fails only when the
response contains no candidates. -/
theorem C5_counterexample :
    hasCandidates nullCandidateResponse = true ∧
    (extractModelText nullCandidateResponse).isNone = true :=
  ⟨by decide, by decide⟩

/-- C5 amended: the normalizer is total by construction (every input yields
a fully-typed `AnalysisResult`), and text extraction yields nothing exactly
when the response is not a truthy object carrying a truthy first candidate —
in particular it can fail although candidates are present, e.g. when the
first candidate is `null`. -/
theorem C5_amended (resp : Json) :
    (extractModelText resp).isNone =
      !(jsTruthy resp && (isObjLike resp && jsTruthyOpt (firstCandidate resp))) := by
  unfold extractModelText
  by_cases hg : (jsTruthy resp && isObjLike resp) = true
  · rw [if_neg (by simp [hg])]
    rw [Bool.and_eq_true] at hg
    by_cases h1 : jsTruthyOpt
        (jsGet (jsIdx0 (jsGet (jsGet (firstCandidate resp) "content") "parts")) "text") = true
    · rw [if_pos h1]
      obtain ⟨w, hw⟩ := jsTruthyOpt_some h1
      have hc : jsTruthyOpt (firstCandidate resp) = true :=
        chain_root_truthy h1 (Or.inr ⟨"parts", rfl⟩)
      rw [hw]
      simp [hg.1, hg.2, hc]
    · rw [if_neg h1]
      by_cases h2 : jsTruthyOpt (jsGet (jsIdx0 (jsGet (firstCandidate resp) "content")) "text") = true
      · rw [if_pos h2]
        obtain ⟨w, hw⟩ := jsTruthyOpt_some h2
        have hc : jsTruthyOpt (firstCandidate resp) = true :=
          chain_root_truthy h2 (Or.inl rfl)
        rw [hw]
        simp [hg.1, hg.2, hc]
      · rw [if_neg h2]
        have hsc : (stringifyCandidate (firstCandidate resp)).isNone =
              !(jsTruthy resp && (isObjLike resp && jsTruthyOpt (firstCandidate resp))) := by
          unfold stringifyCandidate
          cases hc0 : firstCandidate resp with
          | none => simp [hg.1, hg.2, jsTruthyOpt]
          | some cand =>
            cases hct : jsTruthy cand with
            | true => simp [hct, hg.1, hg.2, jsTruthyOpt]
            | false => simp [hct, hg.1, hg.2, jsTruthyOpt]
        cases hmo : jsIdx0 (jsGet (jsGet (firstCandidate resp) "content") "parts") with
        | some v =>
          cases hcond : (jsTruthy v && isObjLike v && !(jsTruthyOpt (rawGet v "text"))) with
          | true =>
            have h2' : jsTruthyOpt (jsGet (jsGet (firstCandidate resp) "content") "parts") = true :=
              jsIdx0_some_truthy hmo
            obtain ⟨w3, hw3⟩ := jsTruthyOpt_some h2'
            have h3 : jsTruthyOpt (jsGet (firstCandidate resp) "content") = true :=
              jsGet_some_truthy hw3
            obtain ⟨w4, hw4⟩ := jsTruthyOpt_some h3
            have hc : jsTruthyOpt (firstCandidate resp) = true := jsGet_some_truthy hw4
            simp [hcond, hg.1, hg.2, hc]
          | false => simpa [hcond] using hsc
        | none => exact hsc
  · rw [if_pos (by simpa using hg)]
    simp only [Bool.and_eq_true, not_and] at hg
    simp only [Option.isNone_none, Bool.not_eq_true']
    cases hA : jsTruthy resp with
    | false => simp
    | true =>
      cases hB : isObjLike resp with
      | false => simp
      | true => exact absurd (hg hA) (by simp [hB])

/-! ### C6 -/

theorem tryParse_reason_some (c : Json) (s : String) :
    (tryParse c (some s)).2 = some s := by
  unfold tryParse
  split
  · split
    · split <;> rfl
    · split
      · split <;> rfl
      · rfl
  · split <;> rfl

/-- C6: when the response carries prompt feedback with a block reason (or
safety ratings) and the pipeline still ends in an error result, the
returned message is the feedback diagnostic recorded before any parse
attempt — every later diagnostic assignment is `aiErrorReason || …`, so the
first non-null reason wins over parse/validation failure reasons. -/
theorem C6_blockReason (resp : Json) (f : Json)
    (hf : jsGet (respBase resp) "promptFeedback" = some f)
    (ht : jsTruthy f = true)
    (hbr : (jsTruthyOpt (optRawGet (some f) "blockReason") ||
            jsTruthyOpt (optRawGet (some f) "safetyRatings")) = true)
    (herr : (normalizeResponse resp).error = true) :
    (normalizeResponse resp).message = some ("API feedback: " ++ stringifyJson f) := by
  have hinit : initialReason resp = some ("API feedback: " ++ stringifyJson f) := by
    unfold initialReason
    rw [hf]
    have hcond : (jsTruthyOpt (some f) &&
        (jsTruthyOpt (optRawGet (some f) "blockReason") ||
         jsTruthyOpt (optRawGet (some f) "safetyRatings"))) = true := by
      rw [hbr]
      show (jsTruthy f && true) = true
      rw [ht]
      rfl
    rw [if_pos hcond]
  have hre : reasonAfterExtract resp = some ("API feedback: " ++ stringifyJson f) := by
    unfold reasonAfterExtract
    rw [hinit]
    split <;> rfl
  have hpr : pipelineReason resp = some ("API feedback: " ++ stringifyJson f) := by
    unfold pipelineReason
    rw [hre]
    exact tryParse_reason_some _ _
  have hfr : finalReason resp = some ("API feedback: " ++ stringifyJson f) := by
    unfold finalReason
    split
    · rw [hpr]
      rfl
    · exact hpr
  rcases normalizeResponse_eq_cases resp with ⟨d, _, heq⟩ | ⟨_, heq⟩
  · rw [heq] at herr
    simp [resultOfValidated] at herr
  · rw [heq]
    have hne : ("API feedback: " ++ stringifyJson f) ≠ "" :=
      append_ne_empty_left _ (by decide)
    simp [defaultingResult, hfr, jsOrElseStr, hne]

/-- C6, witnessed at a blocked response with no candidates. -/
theorem C6_blockReason_witness :
    (normalizeResponse blockedResponse).error = true ∧
    (normalizeResponse blockedResponse).message =
      some ("API feedback: " ++ stringifyJson (.obj [("blockReason", .str "SAFETY")])) :=
  ⟨by decide, C6_blockReason blockedResponse (.obj [("blockReason", .str "SAFETY")])
    (by rfl) (by rfl) (by rfl) (by decide)⟩

/-! ### C7 -/

/-- All external calls succeed, but the user profile does not exist. -/
def c7Env : ApiScanEnv :=
  { upload := .ok (), addScan := .ok "scan1", getUser := .ok none,
    analyze := .ok .null, updateScan := .ok (),
    bucketName := "bucket", nowStr := "1700000000000" }

def c7Req : ScanRequest :=
  { userId := some "user1",
    file := some ⟨"uploads/1700000000000.png", "bottle.png", "image/png"⟩ }

/-- C7 counterexample: a request with a valid userId and image but an
unknown user is answered 404 only after the object-storage upload and the
pending scan-record write have already happened, against the claim that no
external call is made for such a request. -/
theorem C7_counterexample :
    (apiScanHandler c7Env c7Req).1.status = 404 ∧
    RouteEvt.uploadImage ∈ (apiScanHandler c7Env c7Req).2 ∧
    RouteEvt.addScan ∈ (apiScanHandler c7Env c7Req).2 :=
  ⟨by decide, by decide, by decide⟩

/-- C7 amended: a missing userId or missing image is rejected with 400
before any external call; the unknown-user case is rejected with 404, but
only after the image upload and the pending scan-record write have
occurred. -/
theorem C7_amended (env : ApiScanEnv) (req : ScanRequest) :
    (jsTruthyStrOpt req.userId = false →
      apiScanHandler env req =
        ({ status := 400, body := errBody "User ID is required" }, [])) ∧
    (jsTruthyStrOpt req.userId = true → req.file = none →
      apiScanHandler env req =
        ({ status := 400, body := errBody "No image uploaded" }, [])) ∧
    (∀ f id, jsTruthyStrOpt req.userId = true → req.file = some f →
      env.upload = .ok () → env.addScan = .ok id → env.getUser = .ok none →
      (apiScanHandler env req).1.status = 404 ∧
      (apiScanHandler env req).2 = [.uploadImage, .addScan, .fetchUser, .unlinkTmp]) := by
  refine ⟨?_, ?_, ?_⟩
  · intro hu
    simp [apiScanHandler, hu]
  · intro hu hf
    simp [apiScanHandler, hu, hf]
  · intro f id hu hf hup hadd hg
    simp [apiScanHandler, hu, hf, hup, hadd, hg]

def c7ReqNoUser : ScanRequest := { userId := none, file := some ⟨"p", "o", "m"⟩ }

def c7ReqNoFile : ScanRequest := { userId := some "user1", file := none }

/-- C7 amended, witnessed on all three request shapes. -/
theorem C7_amended_witness :
    apiScanHandler c7Env c7ReqNoUser =
      ({ status := 400, body := errBody "User ID is required" }, []) ∧
    apiScanHandler c7Env c7ReqNoFile =
      ({ status := 400, body := errBody "No image uploaded" }, []) ∧
    ((apiScanHandler c7Env c7Req).1.status = 404 ∧
     (apiScanHandler c7Env c7Req).2 = [.uploadImage, .addScan, .fetchUser, .unlinkTmp]) :=
  ⟨(C7_amended c7Env c7ReqNoUser).1 (by decide),
   (C7_amended c7Env c7ReqNoFile).2.1 (by decide) (by decide),
   (C7_amended c7Env c7Req).2.2 ⟨"uploads/1700000000000.png", "bottle.png", "image/png"⟩
     "scan1" (by decide) (by decide) (by rfl) (by rfl) (by rfl)⟩

/-! ### C8 -/

/-- A successful /api/scan run up to a failing firestore result update. -/
def c8ScanEnv : ApiScanEnv :=
  { upload := .ok (), addScan := .ok "scan3", getUser := .ok (some (.obj [])),
    analyze := .ok .null, updateScan := .error ⟨"firestore down", "stacktrace"⟩,
    bucketName := "bucket", nowStr := "1700000000002" }

/-- C8 counterexample: in the `/api/scan` flow the result update has no
inner try/catch, so after a completed analysis a failing document-store
write aborts to the outer catch and the request is answered 500 — the
response does not succeed and the analysis result is not returned. -/
theorem C8_counterexample :
    RouteEvt.callAnalyzer ∈ (apiScanHandler c8ScanEnv c7Req).2 ∧
    (apiScanHandler c8ScanEnv c7Req).1.status = 500 :=
  ⟨by decide, by decide⟩

/-- C8 amended: in the `/api/scan-brand` flow a failing result update is
logged and swallowed — the response is still 200 and carries the analysis
result; in the `/api/scan` flow the same failure propagates to the outer
catch and yields a 500. -/
theorem C8_amended (env : ScanBrandEnv) (req : ScanRequest) (f : FileInfo) (id : String)
    (e : JsError) (hu : jsTruthyStrOpt req.userId = true) (hf : req.file = some f)
    (hup : env.upload = .ok ()) (hadd : env.addScan = .ok id)
    (hupd : env.updateScan = .error e) :
    (scanBrandHandler env req).1.status = 200 ∧
    rawGet (scanBrandHandler env req).1.body "aiResult" =
      some (analysisToJson (scanBrandAiResult env)) ∧
    (scanBrandHandler env req).2 =
      [.uploadImage, .addScan, .callAnalyzer, .updateScan,
       .updateScanFailedLogged, .unlinkTmp] := by
  refine ⟨?_, ?_, ?_⟩ <;>
    simp [scanBrandHandler, hu, hf, hup, hadd, hupd, scanRespBody, rawGet, jlookup]

/-- A scan-brand run whose analyzer succeeds and whose update fails. -/
def c8BrandEnv : ScanBrandEnv :=
  { upload := .ok (), addScan := .ok "scan2",
    analyze := .ok (normalizeResponse scenarioAResponse),
    updateScan := .error ⟨"firestore down", "stacktrace"⟩,
    bucketName := "bucket", nowStr := "1700000000001" }

/-- C8 amended, witnessed on a concrete scan-brand run. -/
theorem C8_amended_witness :
    (scanBrandHandler c8BrandEnv c7Req).1.status = 200 ∧
    rawGet (scanBrandHandler c8BrandEnv c7Req).1.body "aiResult" =
      some (analysisToJson (scanBrandAiResult c8BrandEnv)) ∧
    (scanBrandHandler c8BrandEnv c7Req).2 =
      [.uploadImage, .addScan, .callAnalyzer, .updateScan,
       .updateScanFailedLogged, .unlinkTmp] :=
  C8_amended c8BrandEnv c7Req ⟨"uploads/1700000000000.png", "bottle.png", "image/png"⟩
    "scan2" ⟨"firestore down", "stacktrace"⟩ (by decide) (by decide) (by rfl)
    (by rfl) (by rfl)

/-! ### C9 -/

/-- C9: a profile request whose `name` is missing, empty or whitespace-only
is answered 400 with `\x7berror: "Name is required"\x7d` before the try
block, and no document-store write happens. -/
theorem C9_profileNameRequired (env : ProfileEnv) (body : Json)
    (hb : isNullJson body = false)
    (h : rawGet body "name" = none ∨
         ∃ s, rawGet body "name" = some (.str s) ∧ jsTrim s = "") :
    profileHandler env body =
      (.resp { status := 400, body := .obj [("error", .str "Name is required")] }, []) := by
  unfold profileHandler
  rcases h with h | ⟨s, hs, ht⟩
  · simp [hb, h]
  · simp [hb, hs, ht]

def c9Env : ProfileEnv := ⟨.ok "profile1"⟩

/-- A profile body with no `name` member. -/
def c9Body : Json := .obj [("allergicFoods", .arr [.str "nuts"])]

/-- C9, witnessed at a body missing `name`. -/
theorem C9_profileNameRequired_witness :
    profileHandler c9Env c9Body =
      (.resp { status := 400, body := .obj [("error", .str "Name is required")] }, []) :=
  C9_profileNameRequired c9Env c9Body (by rfl) (Or.inl (by rfl))

/-! ### C10 -/

/-- C10: in every result of `analyzeDrinkWithVertex`, `error` and `message`
are linked — `error = false` comes with `message = null`, and `error = true`
comes with a non-empty diagnostic string (a recorded reason or one of the
fallback texts). -/
theorem C10_errorMessageLink (input : Except JsError Json) :
    ((analyzeDrinkWithVertex input).error = false →
      (analyzeDrinkWithVertex input).message = none) ∧
    ((analyzeDrinkWithVertex input).error = true →
      ∃ m, (analyzeDrinkWithVertex input).message = some m ∧ m ≠ "") := by
  cases input with
  | error e =>
    constructor
    · intro h
      simp [analyzeDrinkWithVertex, catchResult] at h
    · intro _
      refine ⟨_, rfl, ?_⟩
      show (if e.message ≠ "" then e.message else "AI analysis failed") ≠ ""
      split
      · assumption
      · decide
  | ok resp =>
    simp only [analyzeDrinkWithVertex]
    rcases normalizeResponse_eq_cases resp with ⟨d, _, heq⟩ | ⟨_, heq⟩
    · rw [heq]
      constructor
      · intro _
        rfl
      · intro h
        simp [resultOfValidated] at h
    · rw [heq]
      constructor
      · intro h
        simp [defaultingResult] at h
      · intro _
        refine ⟨_, rfl, ?_⟩
        show jsOrElseStr (finalReason resp) "AI parsing/validation failed" ≠ ""
        cases hfr : finalReason resp with
        | some m =>
          simp only [jsOrElseStr]
          split
          · decide
          · assumption
        | none => decide

/-- C10, witnessed on both sides of the link. -/
theorem C10_errorMessageLink_witness :
    (analyzeDrinkWithVertex (.ok scenarioAResponse)).message = none ∧
    ∃ m, (analyzeDrinkWithVertex (.ok overScoreResponse)).message = some m ∧ m ≠ "" :=
  ⟨(C10_errorMessageLink (.ok scenarioAResponse)).1 (by decide),
   (C10_errorMessageLink (.ok overScoreResponse)).2 (by decide)⟩

end SafeBite
